import Mathlib

/-!
Verification development for the `myfinance` bank-statement parser
(`src/parser.py`, `src/constants/banks.py`, `src/classifier.py`).

The Python code is shallowly embedded:
* Python `re` patterns used by the parser are embedded as token lists
  (`RTok`) interpreted by a backtracking matcher `mats` that mirrors the
  semantics of Python's backtracking engine (greedy / lazy character-class
  repetition, ordered alternation, negative lookahead, capture groups).
  Every repetition occurring in the source patterns is over a single
  character class, which this token language covers exactly.
* Python floats obtained from `float(...)` on digit/dot strings are
  modelled as exact rationals (`ℚ`); `np.nan` / missing is `Option.none`.
* pandas DataFrames are modelled as lists of typed row structures; the
  date-conversion, column renaming and column reordering steps of
  `_parse_transactions` are not modelled (no claim concerns them).
* Python character classes `\s`, `\w`, `\d` are modelled over their ASCII
  meaning; the statements proved here only involve ASCII inputs.
-/

set_option maxRecDepth 8000

namespace MyFinance

/-- Python `\s` (ASCII part): space, tab, newline, carriage return,
vertical tab, form feed. -/
def isPySpace (c : Char) : Bool :=
  c = ' ' || c = '\t' || c = '\n' || c = '\r' || c = '\x0b' || c = '\x0c'

/-- Python `\w` (ASCII part): letters, digits, underscore. -/
def isPyWord (c : Char) : Bool :=
  c.isAlpha || c.isDigit || c = '_'

/-- Python `\d` (ASCII part). -/
def isPyDigit (c : Char) : Bool := c.isDigit

/-- Character class `[\d,\.]` used in the HDFC amount fields. -/
def isAmtChar (c : Char) : Bool := c.isDigit || c = ',' || c = '.'

/-- Character class `[\d,]` used in the Union Bank / SBI amount fields. -/
def isDigComma (c : Char) : Bool := c.isDigit || c = ','

/-- Python `.` in a pattern: any character except a newline. -/
def isNotNL (c : Char) : Bool := c ≠ '\n'

/-- Python `\S`. -/
def isNonSpace (c : Char) : Bool := !isPySpace c

/-- Case folding used for `re.IGNORECASE` (ASCII). -/
def lowerC (c : Char) : Char := c.toLower

/-- `str.strip()` on a character list. -/
def stripChars (cs : List Char) : List Char :=
  ((cs.dropWhile isPySpace).reverse.dropWhile isPySpace).reverse

/-- Python `str.strip()`. -/
def pyStrip (s : String) : String := String.mk (stripChars s.data)

/-- Collapse runs of whitespace to a single space,
modelling `re.sub(r'\s+', ' ', line)`: a maximal run of whitespace
characters is replaced by one `' '` (emitted at the run's last char). -/
def collapseRuns : List Char → List Char
  | [] => []
  | [c] => if isPySpace c then [' '] else [c]
  | c :: c' :: rest =>
    if isPySpace c then
      if isPySpace c' then collapseRuns (c' :: rest)
      else ' ' :: collapseRuns (c' :: rest)
    else c :: collapseRuns (c' :: rest)

/-- `re.sub(r'\s+', ' ', s).strip()`, the per-line cleaning used before
header matching (parser.py lines 79 and 155). -/
def collapseWS (s : String) : String := pyStrip (String.mk (collapseRuns s.data))

/-- Does `pat` occur as a contiguous sublist of the second argument? -/
def occursIn (pat : List Char) : List Char → Bool
  | [] => pat.isEmpty
  | c :: rest => pat.isPrefixOf (c :: rest) || occursIn pat rest

/-- Case-sensitive substring test, modelling Python's `sub in s`. -/
def subOccurs (pat s : String) : Bool := occursIn pat.data s.data

/-- Case-insensitive substring test (used for the stop/footer literals,
which `_parse_transactions` searches with `re.IGNORECASE`). -/
def ciSubOccurs (pat s : String) : Bool :=
  occursIn (pat.data.map lowerC) (s.data.map lowerC)

/-- Case-insensitive list prefix test. -/
def ciLeads : List Char → List Char → Bool
  | [], _ => true
  | _ :: _, [] => false
  | p :: ps, c :: cs => lowerC p = lowerC c && ciLeads ps cs

/-! ### Pattern engine

`RTok` is a token language covering exactly the constructs appearing in
the bank-configuration regexes: single characters of a class, greedy or
lazy repetition of a character class, an optional character, literals
(case-sensitive and case-insensitive), capture groups, optional groups,
optional non-capturing groups, negative lookahead over an ordered list of
alternatives, and the end anchor `$`. -/

inductive RTok where
  /-- one character of a class -/
  | one (p : Char → Bool)
  /-- `p*` (`lazyQ = false`: greedy) / `p*?` (`lazyQ = true`) -/
  | many (p : Char → Bool) (lazyQ : Bool)
  /-- `p?` (greedy) -/
  | optChar (p : Char → Bool)
  /-- case-sensitive literal -/
  | lit (s : String)
  /-- case-insensitive literal (patterns compiled with `re.IGNORECASE`) -/
  | litCI (s : String)
  /-- capture group `( ... )` -/
  | group (toks : List RTok)
  /-- optional capture group `( ... )?` -/
  | optGroup (toks : List RTok)
  /-- optional non-capturing group `(?: ... )?` -/
  | optSeq (toks : List RTok)
  /-- end anchor `$` -/
  | eos

/-- Captured groups, in order of appearance. -/
abbrev Caps := List (Option String)

/-- Number of leading characters of `cs` in class `p`. -/
def leadCount (p : Char → Bool) (cs : List Char) : Nat :=
  (cs.takeWhile p).length

/-- Fuel for `matsF`. Each recursive call of `matsF` decrements the
fuel once and descends either into the tail of the token list or into a
group's contents (continuations capture an already-fixed fuel), so the
recursion depth is bounded by the structural size of the token list.
Every pattern in this file is a fixed constant whose structural size is
far below this bound, so the fuel is never exhausted on them. -/
def tokFuel (ts : List RTok) : Nat := 1000 + ts.length

/-- Backtracking matcher with explicit fuel. `matsF fuel ts cs k` tries
to match the token list `ts` against a prefix of `cs`; on success the
continuation `k` receives the remaining characters. Captures produced by
the tokens in `ts` are prepended (in group order) to the captures
produced by `k`. Alternatives are tried in the same order as Python's
backtracking engine: greedy repetition longest-first, lazy repetition
shortest-first, optional elements present-first. A fuel of `tokFuel ts`
is sufficient: each recursive call decrements the fuel once and descends
either into the tail of the token list or into a group's contents. -/
def matsF : Nat → List RTok → List Char → (List Char → Option Caps) → Option Caps
  | 0, _, _, _ => none
  | _ + 1, [], cs, k => k cs
  | f + 1, .one p :: ts, cs, k =>
    match cs with
    | [] => none
    | c :: cs' => if p c then matsF f ts cs' k else none
  | f + 1, .many p lazyQ :: ts, cs, k =>
    let m := leadCount p cs
    let ns := if lazyQ then List.range (m + 1) else (List.range (m + 1)).reverse
    ns.foldr (fun n acc => matsF f ts (cs.drop n) k <|> acc) none
  | f + 1, .optChar p :: ts, cs, k =>
    (match cs with
     | c :: cs' => if p c then matsF f ts cs' k else none
     | [] => none) <|> matsF f ts cs k
  | f + 1, .lit s :: ts, cs, k =>
    if s.data.isPrefixOf cs then matsF f ts (cs.drop s.data.length) k else none
  | f + 1, .litCI s :: ts, cs, k =>
    if ciLeads s.data cs then matsF f ts (cs.drop s.data.length) k else none
  | f + 1, .group g :: ts, cs, k =>
    matsF f g cs (fun cs' =>
      (matsF f ts cs' k).map
        (fun caps => some (String.mk (cs.take (cs.length - cs'.length))) :: caps))
  | f + 1, .optGroup g :: ts, cs, k =>
    (matsF f g cs (fun cs' =>
      (matsF f ts cs' k).map
        (fun caps => some (String.mk (cs.take (cs.length - cs'.length))) :: caps)))
    <|> (matsF f ts cs k).map (fun caps => none :: caps)
  | f + 1, .optSeq g :: ts, cs, k =>
    (matsF f g cs (fun cs' => matsF f ts cs' k)) <|> matsF f ts cs k
  | f + 1, .eos :: ts, cs, k =>
    match cs with
    | [] => matsF f ts [] k
    | _ :: _ => none

/-- `re.match(pattern, s)`: captures on success. (For a `^`-anchored
pattern, `re.match` and `re.search` both match from position 0 only;
patterns whose tail is anchored carry an explicit `.eos` token.) -/
def reMatchCaps (ts : List RTok) (s : String) : Option Caps :=
  matsF (tokFuel ts) ts s.data (fun _ => some [])

/-- Boolean form of `reMatchCaps`. -/
def reMatches (ts : List RTok) (s : String) : Bool :=
  (reMatchCaps ts s).isSome

/-- `re.search` for an unanchored pattern: try every start position. -/
def reSearchAux (ts : List RTok) : List Char → Bool
  | [] => (matsF (tokFuel ts) ts [] (fun _ => some [])).isSome
  | c :: rest =>
    (matsF (tokFuel ts) ts (c :: rest) (fun _ => some [])).isSome
    || reSearchAux ts rest

/-- `re.search(pattern, s)` for an unanchored pattern. -/
def reSearch (ts : List RTok) (s : String) : Bool := reSearchAux ts s.data

/-- Does some alternative of a lookahead match at the start of `s`? -/
def altHits (alts : List (List RTok)) (s : String) : Bool :=
  alts.any (fun a => reMatches a s)

/-! ### Token abbreviations for the pieces shared by the bank patterns -/

/-- `\s*` (greedy). -/
def ws0 : RTok := .many isPySpace false

/-- `\s+` (greedy) as a token sequence (`\s` then `\s*`). -/
def wsP : List RTok := [.one isPySpace, .many isPySpace false]

/-- `\d+` (greedy) as a token sequence. -/
def digP : List RTok := [.one isPyDigit, .many isPyDigit false]

/-- `\S+` (greedy) as a token sequence. -/
def nonSpaceP : List RTok := [.one isNonSpace, .many isNonSpace false]

/-- `\w+` (greedy) as a token sequence. -/
def wordP : List RTok := [.one isPyWord, .many isPyWord false]

/-- `\d{2}/\d{2}/\d{2}` (HDFC date). -/
def dateYY : List RTok :=
  [.one isPyDigit, .one isPyDigit, .lit "/", .one isPyDigit, .one isPyDigit,
   .lit "/", .one isPyDigit, .one isPyDigit]

/-- `\d{2}/\d{2}/\d{4}` (Union Bank / SBI date). -/
def dateYYYY : List RTok :=
  [.one isPyDigit, .one isPyDigit, .lit "/", .one isPyDigit, .one isPyDigit,
   .lit "/", .one isPyDigit, .one isPyDigit, .one isPyDigit, .one isPyDigit]

/-- `[\d,]+\.\d+\s*\(\w+\)`: an amount followed by a `(Dr)` / `(Cr)`
style tag, shared by the SBI and Union Bank patterns. -/
def amtTagP : List RTok :=
  [.one isDigComma, .many isDigComma false, .lit ".", .one isPyDigit,
   .many isPyDigit false, ws0, .lit "("] ++ wordP ++ [.lit ")"]

/-! ### SBI patterns (`src/constants/banks.py`, `SBI`) -/

/-- SBI `'header'`:
`(?i)S\.?\s*No\s+Date\s+Transaction\s+Id\s+Remarks\s+Amount\s+Balance`,
applied with `re.search` (unanchored, case-insensitive). -/
def sbiHeaderToks : List RTok :=
  [.litCI "S", .optChar (· = '.'), ws0, .litCI "No", .one isPySpace, ws0,
   .litCI "Date", .one isPySpace, ws0, .litCI "Transaction", .one isPySpace, ws0,
   .litCI "Id", .one isPySpace, ws0, .litCI "Remarks", .one isPySpace, ws0,
   .litCI "Amount", .one isPySpace, ws0, .litCI "Balance"]

/-- SBI `'transaction_start_pattern'`: `^\s*\d+` (anchored, so `search`
only matches at the start). -/
def sbiStartToks : List RTok := ws0 :: digP

/-- SBI `'transaction_pattern'`:
`^\s*(\d+)\s+(\d{2}/\d{2}/\d{4})\s+(\S+)\s+(.*?)\s+([\d,]+\.\d+\s*\(\w+\))\s+([\d,]+\.\d+\s*\(\w+\))(?:\s+.*)?$`. -/
def sbiTxnToks : List RTok :=
  [ws0, .group digP] ++ wsP ++ [.group dateYYYY] ++ wsP ++
  [.group nonSpaceP] ++ wsP ++ [.group [.many isNotNL true]] ++ wsP ++
  [.group amtTagP] ++ wsP ++ [.group amtTagP] ++
  [.optSeq (wsP ++ [.many isNotNL false]), .eos]

/-! ### HDFC patterns (`src/constants/banks.py`, `HDFC`) -/

/-- HDFC `'header'`:
`(?i)^\s*Date\s+Narration\s+Chq\.\s*[/]\s*Ref\.\s*No\.?\s+Value\s+Dt\s+Withdrawal\s+Amt\.?\s+Deposit\s+Amt\.?\s+Closing\s+Balance\s*`
(anchored at `^`, case-insensitive). -/
def hdfcHeaderToks : List RTok :=
  [ws0, .litCI "Date"] ++ wsP ++ [.litCI "Narration"] ++ wsP ++
  [.litCI "Chq.", ws0, .lit "/", ws0, .litCI "Ref.", ws0,
   .litCI "No", .optChar (· = '.')] ++ wsP ++
  [.litCI "Value"] ++ wsP ++ [.litCI "Dt"] ++ wsP ++
  [.litCI "Withdrawal"] ++ wsP ++ [.litCI "Amt", .optChar (· = '.')] ++ wsP ++
  [.litCI "Deposit"] ++ wsP ++ [.litCI "Amt", .optChar (· = '.')] ++ wsP ++
  [.litCI "Closing"] ++ wsP ++ [.litCI "Balance", ws0]

/-- HDFC `'transaction_pattern'`:
`^\s*(\d{2}/\d{2}/\d{2})\s+(.*?)\s+(\S+)\s+(\d{2}/\d{2}/\d{2})\s+([\d,\.]*)\s+([\d,\.]*)\s+([\d,\.]+)\s*$`. -/
def hdfcTxnToks : List RTok :=
  [ws0, .group dateYY] ++ wsP ++ [.group [.many isNotNL true]] ++ wsP ++
  [.group nonSpaceP] ++ wsP ++ [.group dateYY] ++ wsP ++
  [.group [.many isAmtChar false]] ++ wsP ++
  [.group [.many isAmtChar false]] ++ wsP ++
  [.group [.one isAmtChar, .many isAmtChar false], ws0, .eos]

/-- HDFC `'transaction_start_pattern'`:
`^\s*\d{2}/\d{2}/\d{2}\s+.*\s+\d{2}/\d{2}/\d{2}\s+[\d,\.]*\s+[\d,\.]*\s+[\d,\.]+\s*$`. -/
def hdfcStartToks : List RTok :=
  [ws0] ++ dateYY ++ wsP ++ [.many isNotNL false] ++ wsP ++ dateYY ++ wsP ++
  [.many isAmtChar false] ++ wsP ++ [.many isAmtChar false] ++ wsP ++
  [.one isAmtChar, .many isAmtChar false, ws0, .eos]

/-- The ordered alternatives of the negative lookahead in HDFC's
`'narration_continuation_pattern'` (case-sensitive). -/
def hdfcContAlts : List (List RTok) :=
  [dateYY ++ wsP,
   [.lit "Page"] ++ wsP ++ [.lit "No.:"],
   [.lit "Account"] ++ wsP ++ [.lit "Branch"],
   [.lit "Address", ws0, .lit ":"],
   [.lit "City", ws0, .lit ":"],
   [.lit "State", ws0, .lit ":"],
   [.lit "Phone"] ++ wsP ++ [.lit "no."],
   [.lit "OD"] ++ wsP ++ [.lit "Limit"],
   [.lit "Currency", ws0, .lit ":"],
   [.lit "Email", ws0, .lit ":"],
   [.lit "Cust"] ++ wsP ++ [.lit "ID"],
   [.lit "Account"] ++ wsP ++ [.lit "No"],
   [.lit "A/C"] ++ wsP ++ [.lit "Open"] ++ wsP ++ [.lit "Date"],
   [.lit "Account"] ++ wsP ++ [.lit "Status"],
   [.lit "RTGS/NEFT"] ++ wsP ++ [.lit "IFSC:"],
   [.lit "MICR:"],
   [.lit "Product"] ++ wsP ++ [.lit "Code:"],
   [.lit "Branch"] ++ wsP ++ [.lit "Code"],
   [.lit "Nomination:"],
   [.lit "From:"],
   [.lit "Date"] ++ wsP ++ [.lit "Narration"],
   [.lit "HDFC"] ++ wsP ++ [.lit "BANK"],
   [.lit "We"] ++ wsP ++ [.lit "understand"],
   [.lit "MR."],
   [.lit "JOINT"] ++ wsP ++ [.lit "HOLDERS:"],
   [.lit "Opening"] ++ wsP ++ [.lit "Balance"],
   [.lit "Statement"] ++ wsP ++ [.lit "Summary"],
   [.lit "TOTAL"] ++ wsP ++ [.lit "DEBITS"],
   [.lit "TOTAL"] ++ wsP ++ [.lit "CREDITS"],
   [.lit "CLOSING"] ++ wsP ++ [.lit "BALANCE"],
   [.lit "Minimum"] ++ wsP ++ [.lit "Balance"],
   [.lit "Average"] ++ wsP ++ [.lit "Monthly"],
   [.lit "Transactions"] ++ wsP ++ [.lit "legend:"],
   [.lit "Interest"] ++ wsP ++ [.lit "rate"],
   [.lit "If"] ++ wsP ++ [.lit "you"] ++ wsP ++ [.lit "have"],
   [.lit "Please"] ++ wsP ++ [.lit "quote"],
   [.lit "Regd."]]

/-- HDFC `'narration_continuation_pattern'`:
`^\s*(?!(ALT1|...|ALTn)).*$`, applied with `.match`. The parser only
ever applies it to `.strip()`-ed lines (parser.py line 224, via
`next_line`), on which `^\s*` can only match the empty string, so the
negative lookahead is evaluated exactly once, at position 0; `.*$` then
succeeds iff the line has no embedded newline (stripped lines cannot end
in a newline). This definition is that call-site semantics. -/
def hdfcNarrCont (s : String) : Bool :=
  !(altHits hdfcContAlts s) && reMatches [ws0, .many isNotNL false, .eos] s

/-! ### Union Bank patterns (`src/constants/banks.py`, `UNION_BANK`) -/

/-- Union Bank `'header'`:
`(?i)S\.?\s*No\s+Date\s+Transaction\s+Id\s+Remarks\s+Amount\s*\(Rs\.\)\s+Balance\s*\(Rs\.\)`. -/
def unionHeaderToks : List RTok :=
  [.litCI "S", .optChar (· = '.'), ws0, .litCI "No", .one isPySpace, ws0,
   .litCI "Date", .one isPySpace, ws0, .litCI "Transaction", .one isPySpace, ws0,
   .litCI "Id", .one isPySpace, ws0, .litCI "Remarks", .one isPySpace, ws0,
   .litCI "Amount", ws0, .litCI "(Rs.)", .one isPySpace, ws0,
   .litCI "Balance", ws0, .litCI "(Rs.)"]

/-- Union Bank `'transaction_start_pattern'`: `^\s*\d+\s+\d{2}/\d{2}/\d{4}`. -/
def unionStartToks : List RTok := [ws0] ++ digP ++ wsP ++ dateYYYY

/-- Union Bank `'transaction_pattern_same_line'`:
`^\s*(\d+)\s+(\d{2}/\d{2}/\d{4})\s+(\S+)\s+(.*?)\s+([\d,]+\.\d+\s*\(\w+\))\s+([\d,]+\.\d+\s*\(\w+\))\s*?$`. -/
def unionSameToks : List RTok :=
  [ws0, .group digP] ++ wsP ++ [.group dateYYYY] ++ wsP ++
  [.group nonSpaceP] ++ wsP ++ [.group [.many isNotNL true]] ++ wsP ++
  [.group amtTagP] ++ wsP ++ [.group amtTagP] ++
  [.many isPySpace true, .eos]

/-- Union Bank `'transaction_pattern_multi_line'`:
`^\s*(\d+)\s+(\d{2}/\d{2}/\d{4})\s+(\S+)\s+(.*?)\s+([\d,]+\.\d+\s*\(\w+\))(\s*\(\w+\))?\s*$`. -/
def unionMultiToks : List RTok :=
  [ws0, .group digP] ++ wsP ++ [.group dateYYYY] ++ wsP ++
  [.group nonSpaceP] ++ wsP ++ [.group [.many isNotNL true]] ++ wsP ++
  [.group amtTagP,
   .optGroup ([ws0, .lit "("] ++ wordP ++ [.lit ")"]),
   ws0, .eos]

/-- Union Bank `'multi_line_balance_pattern'`:
`^\s*([\d,]+\.\d+\s*\(\w+\))\s*$`, applied with `.match` on an
already-stripped line. The same pattern text (with its capture group,
which does not affect whether a match exists) occurs as the last
alternative inside the negative lookahead of
`'remarks_continuation_pattern'`, so the two definitions share this
token list. -/
def bareBalanceToks : List RTok := [ws0, .group amtTagP, ws0, .eos]

/-- The ordered alternatives of the negative lookahead in Union Bank's
`'remarks_continuation_pattern'` (case-sensitive). -/
def unionContAlts : List (List RTok) :=
  [digP ++ wsP ++ dateYYYY,
   [.lit "S", .optChar (· = '.'), ws0, .lit "No", .many isNotNL false,
    .lit "Date", .many isNotNL false, .lit "Transaction"] ++ wsP ++ [.lit "Id"],
   [.lit "NEFT:"], [.lit "RTGS:"], [.lit "UPI:"], [.lit "INT:"], [.lit "HBPS:"],
   [.lit "This is system generated"],
   [.lit "https:"],
   [.lit "Request to out customers"],
   [.lit "Registered office:"],
   [.lit "Details of statement"],
   [.lit "(Cr)"], [.lit "(Dr)"],
   [.lit "Page"] ++ wsP ++ digP,
   [.lit "Scan the QR code"],
   [.lit "यूनियन बैंक"],
   [.lit "Union Bank"],
   [.lit "VYOM"],
   [.lit "Account Type"], [.lit "Account Number"], [.lit "Currency"],
   [.lit "Branch Address"], [.lit "Statement Date"], [.lit "Statement Period"],
   [.lit "Customer/CIF ID"],
   bareBalanceToks]

/-- Union Bank `'remarks_continuation_pattern'`:
`^\s*(?!(ALT1|...|ALTn)).+$`, applied with `.match`. As with
`hdfcNarrCont`, the parser only applies it to `.strip()`-ed lines
(parser.py lines 251-253, 284), on which `^\s*` matches only the empty
string, so the lookahead is evaluated exactly once at position 0 and
`.+$` succeeds iff the line is non-empty without an embedded newline. -/
def unionRemCont (s : String) : Bool :=
  !(altHits unionContAlts s) && reMatches [ws0, .one isNotNL, .many isNotNL false, .eos] s

/-! ### Bank registry and detection (`BankStatementParser.detect_bank`) -/

/-- The keys of the `BANKS` dictionary, in its (insertion-ordered)
iteration order. -/
inductive BankId where
  | SBI
  | HDFC
  | UNION_BANK
deriving DecidableEq, Repr

/-- Registry iteration order of `BANKS.items()`. -/
def registry : List BankId := [.SBI, .HDFC, .UNION_BANK]

/-- The detection-relevant part of one `BANKS` entry: the `'name'`
string, the `'header'` pattern applied to the whitespace-collapsed line,
and the `'transaction_start_pattern'` applied to the original line
(optional, matching `config.get('transaction_start_pattern')`). -/
structure DetectCfg where
  name : String
  headerHit : String → Bool
  startHit : Option (String → Bool)

/-- SBI header search (unanchored `re.search`). -/
def sbiHeaderHit (s : String) : Bool := reSearch sbiHeaderToks s

/-- HDFC header search (`^`-anchored, so only position 0 can match). -/
def hdfcHeaderHit (s : String) : Bool := reMatches hdfcHeaderToks s

/-- Union Bank header search (unanchored `re.search`). -/
def unionHeaderHit (s : String) : Bool := reSearch unionHeaderToks s

/-- SBI start-pattern search (`^`-anchored). -/
def sbiStartHit (s : String) : Bool := reMatches sbiStartToks s

/-- HDFC start-pattern search (`^`-anchored). -/
def hdfcStartHit (s : String) : Bool := reMatches hdfcStartToks s

/-- Union Bank start-pattern search (`^`-anchored). -/
def unionStartHit (s : String) : Bool := reMatches unionStartToks s

/-- The registry contents (`src/constants/banks.py`, `BANKS`). -/
def detectCfg : BankId → DetectCfg
  | .SBI => ⟨"State Bank of India", sbiHeaderHit, some sbiStartHit⟩
  | .HDFC => ⟨"HDFC Bank", hdfcHeaderHit, some hdfcStartHit⟩
  | .UNION_BANK => ⟨"Union Bank of India", unionHeaderHit, some unionStartHit⟩

/-- Is the first character of the remainder after the matched name a
word character? (`\b` at the end of a name that ends in a word char.) -/
def tailBoundary (pat cs : List Char) : Bool :=
  match cs.drop pat.length with
  | [] => true
  | c :: _ => !isPyWord c

/-- Scan for a `\b name \b` occurrence, case-insensitively, tracking
whether the previous character was a word character. All three bank
names begin and end with letters, so `\b` before (after) the name holds
iff the preceding (following) character is absent or a non-word
character. -/
def wordCISearchAux (pat : List Char) (prevW : Bool) : List Char → Bool
  | [] => false
  | c :: rest =>
    (!prevW && ciLeads pat (c :: rest) && tailBoundary pat (c :: rest))
    || wordCISearchAux pat (isPyWord c) rest

/-- `re.search(r'\b' + re.escape(name) + r'\b', text, re.IGNORECASE)`
(parser.py line 66), for a name beginning and ending in word
characters. -/
def wordCISearch (pat text : String) : Bool :=
  wordCISearchAux pat.data false text.data

/-- Split a character list at newline characters. -/
def splitNL : List Char → List (List Char)
  | [] => [[]]
  | c :: rest =>
    if c = '\n' then [] :: splitNL rest
    else
      match splitNL rest with
      | [] => [[c]]
      | g :: gs => (c :: g) :: gs

/-- Python `str.splitlines()` restricted to `\n` separators (the text is
assembled with `"\n".join(pdf)`): split at newlines, except that the
empty string yields `[]` and a trailing newline does not produce a
trailing empty line. -/
def pySplitlines (s : String) : List String :=
  if s.data.isEmpty then []
  else
    let parts := (splitNL s.data).map String.mk
    if s.data.getLast? = some '\n' then parts.dropLast else parts

/-- The inner loop of the header-based fallback detection (parser.py
lines 78-99): walk the lines; when the header pattern matches the
whitespace-collapsed line, confirm via the start rule on one of the next
9 original lines (`range(i+1, min(i+10, len(lines)))`), or succeed
immediately when no start rule is configured; on a failed confirmation
continue scanning later lines. -/
def headerConfirmedAux (cfg : DetectCfg) : List String → Bool
  | [] => false
  | l :: rest =>
    if cfg.headerHit (collapseWS l) then
      match cfg.startHit with
      | none => true
      | some f => (rest.take 9).any f || headerConfirmedAux cfg rest
    else headerConfirmedAux cfg rest

/-- Does the header-based fallback confirm this layout on these lines? -/
def headerConfirmed (cfg : DetectCfg) (lines : List String) : Bool :=
  headerConfirmedAux cfg lines

/-- Step 1 of `detect_bank`: first registry entry whose name occurs
word-bounded (case-insensitively) in the text. -/
def detectByName (text : String) : Option BankId :=
  registry.find? (fun b => wordCISearch (detectCfg b).name text)

/-- Step 2 of `detect_bank`: first registry entry confirmed by the
header-based fallback. -/
def detectByHeader (lines : List String) : Option BankId :=
  registry.find? (fun b => headerConfirmed (detectCfg b) lines)

/-- `BankStatementParser.detect_bank` (parser.py lines 55-104): `None`
on empty text, otherwise name match first, then header fallback, else
`None` (no exception in any case). -/
def detectBank (text : String) : Option BankId :=
  if text = "" then none
  else
    match detectByName text with
    | some b => some b
    | none => detectByHeader (pySplitlines text)

/-! ### Amount cleaning (`BankStatementParser._clean_amount`,
`extract_amount_type`) -/

/-- Decimal value of a digit list. -/
def digitsVal (cs : List Char) : Nat :=
  cs.foldl (fun n c => n * 10 + (c.toNat - '0'.toNat)) 0

/-- Python `float(...)` on a string consisting only of digits and dots;
exact-rational model (`ip.fp` denotes `(ip * 10^|fp| + fp) / 10^|fp|`).
Accepts at most one dot and at least one digit (`"5."`, `".5"` are
valid; `"."`, `""`, `"1.2.3"` raise `ValueError`, modelled as `none`). -/
def pyFloatDigitsDots (cs : List Char) : Option ℚ :=
  match (cs.filter (· = '.')).length with
  | 0 => if cs.isEmpty then none else some (mkRat (Int.ofNat (digitsVal cs)) 1)
  | 1 =>
    let ip := cs.takeWhile (· ≠ '.')
    let fp := (cs.dropWhile (· ≠ '.')).drop 1
    if ip.isEmpty && fp.isEmpty then none
    else
      some (mkRat (Int.ofNat (digitsVal ip * 10 ^ fp.length + digitsVal fp))
              (10 ^ fp.length))
  | _ => none

/-- `BankStatementParser._clean_amount` on a string input (parser.py
lines 107-117): drop every character that is not a digit or a dot (this
subsumes the `replace(',', '')`), then `float(...)`, with `''` and `'.'`
and unparsable results giving `np.nan` (modelled as `none`). -/
def cleanAmount (s : String) : Option ℚ :=
  let cleaned := s.data.filter (fun c => c.isDigit || c = '.')
  if cleaned.isEmpty || cleaned = ['.'] then none
  else pyFloatDigitsDots cleaned

/-- Direction tag of a transaction (`'Dr'` / `'Cr'`). -/
inductive TxnDir where
  | Dr
  | Cr
deriving DecidableEq, Repr

/-- `extract_amount_type` (parser.py lines 375-379), the Union Bank /
SBI amount post-processing: numeric value via `_clean_amount`, and
direction from a case-sensitive `'(Dr)' in s` / `'(Cr)' in s` substring
test — the running balance is not consulted. -/
def extractAmountType (s : String) : Option ℚ × Option TxnDir :=
  (cleanAmount s,
   if subOccurs "(Dr)" s then some TxnDir.Dr
   else if subOccurs "(Cr)" s then some TxnDir.Cr
   else none)

/-! ### Transaction scanning (`BankStatementParser._parse_transactions`) -/

/-- Raw HDFC record: the 7 capture groups of `'transaction_pattern'`
after narration merging, each `.strip()`-ed when the row dict is built
(parser.py line 328). -/
structure HdfcRaw where
  date : String
  narration : String
  refNo : String
  valueDt : String
  withdrawal : String
  deposit : String
  balance : String
deriving DecidableEq, Repr

/-- Raw Union Bank / SBI record: groups 1-5 of the same-line / SBI
pattern (or of the multi-line pattern), plus the balance, which is
`none` for a multi-line row whose following bare-balance line was never
found. -/
structure UnionRaw where
  srNo : String
  date : String
  txnId : String
  remarks : String
  amount : String
  balance : Option String
deriving DecidableEq, Repr

/-- A raw parsed transaction of either shape. -/
inductive RawTxn where
  | hdfc (r : HdfcRaw)
  | union (r : UnionRaw)
deriving DecidableEq, Repr

/-- HDFC narration-continuation collection (parser.py lines 220-228):
starting from the lines after the matched one, append `.strip()`-ed
lines until a line is empty, matches the start pattern (tested on the
original line), or fails the narration-continuation pattern. Returns
the collected parts and the number of consumed lines. -/
def hdfcCollect : List String → List String × Nat
  | [] => ([], 0)
  | orig :: rest =>
    let nl := pyStrip orig
    if nl = "" || hdfcStartHit orig || !hdfcNarrCont nl then ([], 0)
    else
      let (ps, c) := hdfcCollect rest
      (nl :: ps, c + 1)

/-- Is this (stripped) line a bare balance line
(`'multi_line_balance_pattern'`)? -/
def bareBalanceHit (s : String) : Bool := reMatches bareBalanceToks s

/-- Group 1 of a bare balance line match. -/
def bareBalanceCap (s : String) : Option String :=
  match reMatchCaps bareBalanceToks s with
  | some (some g :: _) => some g
  | _ => none

/-- Union Bank same-line remarks-continuation collection (parser.py
lines 249-257): like `hdfcCollect`, but a bare balance line also
terminates the collection, checked before the generic remarks
continuation rule. -/
def unionSameCollect : List String → List String × Nat
  | [] => ([], 0)
  | orig :: rest =>
    let nl := pyStrip orig
    if nl = "" || unionStartHit orig || bareBalanceHit nl || !unionRemCont nl then
      ([], 0)
    else
      (nl :: (unionSameCollect rest).1, (unionSameCollect rest).2 + 1)

/-- Union Bank multi-line continuation collection (parser.py lines
272-288): while the balance has not been found yet, a bare balance line
is consumed as the transaction's balance (group 1); otherwise a line
matching the remarks-continuation pattern is appended; anything else
stops. Returns (parts, balance, consumed). -/
def unionMultiCollect : List String → Bool → List String × Option String × Nat
  | [], _ => ([], none, 0)
  | orig :: rest, balFound =>
    let nl := pyStrip orig
    if !balFound && bareBalanceHit nl then
      ((unionMultiCollect rest true).1, bareBalanceCap nl,
       (unionMultiCollect rest true).2.2 + 1)
    else if unionRemCont nl then
      (nl :: (unionMultiCollect rest balFound).1,
       (unionMultiCollect rest balFound).2.1,
       (unionMultiCollect rest balFound).2.2 + 1)
    else ([], none, 0)

/-- `" ".join(parts)`. -/
def joinSpace (parts : List String) : String := String.intercalate " " parts

/-- Try to parse the (stripped) line as an HDFC transaction, merging
narration continuations collected from the following lines (parser.py
lines 209-230, 315-330). Returns the raw record and the number of extra
lines consumed. -/
def hdfcRawOfLine (line : String) (rest : List String) : Option (HdfcRaw × Nat) :=
  match reMatchCaps hdfcTxnToks line with
  | some [some d, some narr, some ref, some vd, some w, some dep, some bal] =>
    let parts0 : List String := if narr = "" then [] else [pyStrip narr]
    let (contParts, consumed) := hdfcCollect rest
    let fullNarr := joinSpace (parts0 ++ contParts)
    some ({ date := pyStrip d, narration := pyStrip fullNarr, refNo := pyStrip ref,
            valueDt := pyStrip vd, withdrawal := pyStrip w, deposit := pyStrip dep,
            balance := pyStrip bal }, consumed)
  | _ => none

/-- Try to parse the (stripped) line as a Union Bank same-line
transaction (parser.py lines 241-259, 315-330). -/
def unionSameRawOfLine (line : String) (rest : List String) : Option (UnionRaw × Nat) :=
  match reMatchCaps unionSameToks line with
  | some [some sr, some d, some tid, some rem, some amt, some bal] =>
    let parts0 : List String := if rem = "" then [] else [pyStrip rem]
    let (contParts, consumed) := unionSameCollect rest
    let fullRem := joinSpace ((parts0 ++ contParts).filter (· ≠ ""))
    some ({ srNo := pyStrip sr, date := pyStrip d, txnId := pyStrip tid,
            remarks := pyStrip fullRem, amount := pyStrip amt,
            balance := some (pyStrip bal) }, consumed)
  | _ => none

/-- Try to parse the (stripped) line as a Union Bank multi-line
transaction (parser.py lines 262-294, 315-330): the balance comes from a
following bare balance line, if one is found before the continuation
stops. -/
def unionMultiRawOfLine (line : String) (rest : List String) : Option (UnionRaw × Nat) :=
  match reMatchCaps unionMultiToks line with
  | some [some sr, some d, some tid, some rem, some amt, _g6] =>
    let parts0 : List String := if rem = "" then [] else [pyStrip rem]
    let (contParts, bal, consumed) := unionMultiCollect rest false
    let fullRem := joinSpace ((parts0 ++ contParts).filter (· ≠ ""))
    some ({ srNo := pyStrip sr, date := pyStrip d, txnId := pyStrip tid,
            remarks := pyStrip fullRem, amount := pyStrip amt,
            balance := bal.map pyStrip }, consumed)
  | _ => none

/-- Try to parse the (stripped) line as an SBI transaction (the generic
branch, parser.py lines 304-311; SBI has no continuation logic). -/
def sbiRawOfLine (line : String) : Option UnionRaw :=
  match reMatchCaps sbiTxnToks line with
  | some [some sr, some d, some tid, some rem, some amt, some bal] =>
    some { srNo := pyStrip sr, date := pyStrip d, txnId := pyStrip tid,
           remarks := pyStrip rem, amount := pyStrip amt,
           balance := some (pyStrip bal) }
  | _ => none

/-- The literal stop/footer patterns of `_parse_transactions` (parser.py
lines 176-190) that are plain substring searches under `re.IGNORECASE`. -/
def stopLits : List String :=
  ["Statement Summary", "TOTAL DEBITS", "This is system generated",
   "Request to out customers", "Transactions legend:", "Minimum Balance",
   "Average Monthly", "Interest rate", "If you have any queries",
   "Please quote your", "STATEMENT SUMMARY :-"]

/-- Stop pattern `^\s*Generated On:` (case-insensitive). -/
def genOnToks : List RTok := [ws0, .litCI "Generated On:"]

/-- Stop pattern `^\s*Closing Balance\s+[\d,\.]+\s+Cr\s*$`
(case-insensitive). -/
def closingBalToks : List RTok :=
  [ws0, .litCI "Closing Balance"] ++ wsP ++
  [.one isAmtChar, .many isAmtChar false] ++ wsP ++ [.litCI "Cr", ws0, .eos]

/-- Does the (stripped) line match one of the stop/footer patterns? -/
def stopLineHit (line : String) : Bool :=
  stopLits.any (fun p => ciSubOccurs p line)
  || reMatches genOnToks line || reMatches closingBalToks line

/-- The multiple-blank-lines stop condition (parser.py lines 170-173):
current line blank, `i > 0`, previous line blank, and all of the next up
to 3 lines (`lines[i+1:min(i+4, len(lines))]`) blank. -/
def blankRunAt (lines : List String) (i : Nat) : Bool :=
  decide (pyStrip (lines.getD i "") = "")
  && decide (0 < i)
  && decide (pyStrip (lines.getD (i - 1) "") = "")
  && ((lines.drop (i + 1)).take 3).all (fun l => pyStrip l = "")

/-- Outcome of one iteration of the `_parse_transactions` line loop. -/
inductive StepRes where
  /-- `break` out of the loop -/
  | stop
  /-- header recognized: enter the transaction section, advance one line -/
  | header
  /-- advance one line, emitting an optional console debug message -/
  | skip (msg : Option String)
  /-- a transaction matched: record it and advance `1 + consumed` lines -/
  | txn (r : RawTxn) (consumed : Nat)
deriving DecidableEq, Repr

/-- One iteration of the `_parse_transactions` line loop (parser.py
lines 152-335) at index `i`. `inSec` models `in_transaction_section`
(which coincides with `header_found`: both are set together at line
158-160 and never reset); `hasTxns` models `if transactions:`. -/
def stepAt (bank : BankId) (lines : List String) (i : Nat)
    (inSec : Bool) (hasTxns : Bool) : StepRes :=
  let orig := lines.getD i ""
  let line := pyStrip orig
  let lineCl := collapseWS line
  if !inSec && (detectCfg bank).headerHit lineCl then .header
  else if !inSec then .skip none
  else if hasTxns && blankRunAt lines i then .stop
  else if hasTxns && stopLineHit line then .stop
  else
    match bank with
    | .HDFC =>
      match hdfcRawOfLine line (lines.drop (i + 1)) with
      | some (r, consumed) => .txn (.hdfc r) consumed
      | none => .skip none
    | .UNION_BANK =>
      match unionSameRawOfLine line (lines.drop (i + 1)) with
      | some (r, consumed) => .txn (.union r) consumed
      | none =>
        match unionMultiRawOfLine line (lines.drop (i + 1)) with
        | some (r, consumed) => .txn (.union r) consumed
        | none =>
          if line ≠ "" && unionStartHit line then
            .skip (some ("DEBUG UNION: No transaction match on line "
              ++ toString i ++ ": '" ++ line ++ "'"))
          else .skip none
    | .SBI =>
      match sbiRawOfLine line with
      | some r => .txn (.union r) 0
      | none => .skip none

/-- The `_parse_transactions` line loop, fuelled (the index strictly
increases each iteration, so `lines.length` iterations always suffice).
Accumulates the parsed raw transactions and the console debug messages
printed for unmatched Union Bank transaction-start lines. -/
def scanGo (bank : BankId) (lines : List String) :
    Nat → Nat → Bool → List RawTxn → List String → List RawTxn × List String
  | 0, _, _, txns, msgs => (txns, msgs)
  | fuel + 1, i, inSec, txns, msgs =>
    if i < lines.length then
      match stepAt bank lines i inSec (!txns.isEmpty) with
      | .stop => (txns, msgs)
      | .header => scanGo bank lines fuel (i + 1) true txns msgs
      | .skip m => scanGo bank lines fuel (i + 1) inSec txns (msgs ++ m.toList)
      | .txn r c => scanGo bank lines fuel (i + 1 + c) inSec (txns ++ [r]) msgs
    else (txns, msgs)

/-- The line loop of `_parse_transactions`: raw transactions in order,
plus the debug messages. -/
def scanTransactions (bank : BankId) (lines : List String) :
    List RawTxn × List String :=
  scanGo bank lines lines.length 0 false [] []

/-! ### Post-processing into resolved rows (parser.py lines 346-416).

Date parsing (`pd.to_datetime` with `errors='coerce'`), the formatted
`'Amount(Rs.)'` display string, column renaming and column reordering are
not modelled: no claim concerns them, and they do not touch the numeric
amount / direction fields. -/

/-- Resolved HDFC row (`Withdrawal Amt.`, `Deposit Amt.`,
`Closing Balance_Num`, `Amount_Num`, `Type` columns; parser.py lines
353-367). `none` models `NaN`. -/
structure HRow where
  date : String
  narration : String
  refNo : String
  valueDt : String
  withdrawal : Option ℚ
  deposit : Option ℚ
  balanceNum : Option ℚ
  amountNum : Option ℚ
  txType : Option TxnDir
deriving DecidableEq, Repr

/-- HDFC per-row post-processing (parser.py lines 353-367):
`Amount_Num = withdrawal if notna(withdrawal) and withdrawal != 0 else
deposit`; `Type = 'Dr'` under the same withdrawal condition, else `'Cr'`
if the deposit is present and non-zero, else `None`. -/
def hdfcPostRow (r : HdfcRaw) : HRow :=
  let w := cleanAmount r.withdrawal
  let d := cleanAmount r.deposit
  let wNZ : Bool := match w with | some v => decide (v ≠ 0) | none => false
  let dNZ : Bool := match d with | some v => decide (v ≠ 0) | none => false
  { date := r.date, narration := r.narration, refNo := r.refNo,
    valueDt := r.valueDt, withdrawal := w, deposit := d,
    balanceNum := cleanAmount r.balance,
    amountNum := if wNZ then w else d,
    txType := if wNZ then some TxnDir.Dr
              else if dNZ then some TxnDir.Cr
              else none }

/-- HDFC table assembly. -/
def hdfcPost (rs : List HdfcRaw) : List HRow := rs.map hdfcPostRow

/-- Resolved Union Bank / SBI row (`Amount_Num`, `Type`,
`Balance(Rs.)_Num` columns; parser.py lines 370-385). -/
structure URow where
  srNo : String
  date : String
  txnId : String
  remarks : String
  amountNum : Option ℚ
  txType : Option TxnDir
  balanceNum : Option ℚ
deriving DecidableEq, Repr

/-- Union Bank / SBI per-row post-processing (parser.py lines 370-385):
`Amount_Num` and `Type` come from `extract_amount_type` on the amount
text; the balance column goes through `_clean_amount` (a missing
multi-line balance is `None`, hence `NaN`). -/
def unionSbiPostRow (r : UnionRaw) : URow :=
  let vt := extractAmountType r.amount
  { srNo := r.srNo, date := r.date, txnId := r.txnId, remarks := r.remarks,
    amountNum := vt.1, txType := vt.2,
    balanceNum := r.balance.bind cleanAmount }

/-- Union Bank / SBI table assembly. -/
def unionSbiPost (rs : List UnionRaw) : List URow := rs.map unionSbiPostRow

/-- The value returned by `BankStatementParser.parse`: either the
no-column empty frame `pd.DataFrame()` or a typed table of resolved
rows. -/
inductive PTable where
  /-- `pd.DataFrame()` -/
  | empty
  /-- an HDFC table -/
  | hdfcT (rows : List HRow)
  /-- a Union Bank / SBI table -/
  | unionT (rows : List URow)
deriving DecidableEq, Repr

/-- Project an HDFC raw record out of the sum. -/
def rawHdfc : RawTxn → Option HdfcRaw
  | .hdfc r => some r
  | _ => none

/-- Project a Union Bank / SBI raw record out of the sum. -/
def rawUnion : RawTxn → Option UnionRaw
  | .union r => some r
  | _ => none

/-- The exception that escapes the happy path of `parse` (parser.py line
436): when the parsed DataFrame is empty, evaluating
`df.empty and header_found` raises `NameError` because `header_found` is
a local variable of `_parse_transactions`, undefined in `parse`. When
the DataFrame is non-empty, `and` short-circuits and `header_found` is
never evaluated. -/
inductive PyErr where
  | nameErrorHeaderFound
deriving DecidableEq, Repr

/-- The body of `parse`'s `try:` block for a detected bank (parser.py
lines 432-441): `_parse_transactions` (which itself returns
`pd.DataFrame()` when no transaction matched), the success print, and
the `df.empty and header_found` check that raises `NameError` exactly
when the frame is empty. -/
def parseBody (bank : BankId) (text : String) : Except PyErr PTable :=
  let raws := (scanTransactions bank (pySplitlines text)).1
  if raws.isEmpty then .error .nameErrorHeaderFound
  else
    .ok (match bank with
      | .HDFC => .hdfcT (hdfcPost (raws.filterMap rawHdfc))
      | .UNION_BANK => .unionT (unionSbiPost (raws.filterMap rawUnion))
      | .SBI => .unionT (unionSbiPost (raws.filterMap rawUnion)))

/-- `BankStatementParser.parse` (parser.py lines 419-448): empty text →
`pd.DataFrame()`; failed detection → `pd.DataFrame()`; otherwise the
try/except around the parse body, where any exception (including the
`NameError` of the empty-result path) is caught and converted to
`pd.DataFrame()`. -/
def parse (text : String) : PTable :=
  if text = "" then .empty
  else
    match detectBank text with
    | none => .empty
    | some bank =>
      match parseBody bank text with
      | .ok t => t
      | .error _ => .empty

/-! ### Categorization fallback (`classifier.py`, `add_classification`,
lines 134-147).

Only the branch taken for the tables this parser produces is modelled:
both the HDFC and the Union Bank / SBI tables carry `Type` and
`Amount_Num` columns, so the fallback tests
`Category == 'Uncategorized' and Type == 'Cr' and notna(Amount_Num) and
Amount_Num > income_threshold` with `income_threshold = 5000`. -/

/-- A classified row as seen by the fallback rule: its category, its
`Type` and its `Amount_Num`. -/
structure CRow where
  category : String
  txType : Option TxnDir
  amountNum : Option ℚ
deriving DecidableEq, Repr

/-- The fallback condition of classifier.py line 143. -/
def incomeFallbackCond (r : CRow) : Bool :=
  decide (r.category = "Uncategorized")
  && decide (r.txType = some TxnDir.Cr)
  && (match r.amountNum with
      | some v => decide ((5000 : ℚ) < v)
      | none => false)

/-- The post-classification fallback (classifier.py lines 134-143):
rows still `'Uncategorized'` whose `Type` is `'Cr'` and whose numeric
amount strictly exceeds 5000 are reclassified to `'Salary/Income'`; all
other rows are unchanged. -/
def applyIncomeFallback (rows : List CRow) : List CRow :=
  rows.map (fun r =>
    if incomeFallbackCond r then { r with category := "Salary/Income" } else r)

/-! ### Concrete fixtures used in the theorems below -/

/-- Position of a bank in the registry iteration order. -/
def bankIdx : BankId → Nat
  | .SBI => 0
  | .HDFC => 1
  | .UNION_BANK => 2

/-- An HDFC statement text whose single transaction line carries a
non-zero value in both the withdrawal and the deposit column. -/
def hdfcBothText : String :=
  "HDFC Bank\nDate Narration Chq./Ref.No. Value Dt Withdrawal Amt. Deposit Amt. Closing Balance\n01/04/25 PAYMENT REF1 01/04/25 100.00 200.00 300.00"

/-- First HDFC raw record of `c7HdfcLines`. -/
def hdfcRaw1 : HdfcRaw :=
  { date := "01/04/25", narration := "PAYMENT", refNo := "REF1",
    valueDt := "01/04/25", withdrawal := "100.00", deposit := "200.00",
    balance := "300.00" }

/-- Second HDFC raw record of `c7HdfcLines`. -/
def hdfcRaw2 : HdfcRaw :=
  { date := "02/04/25", narration := "REFUND", refNo := "REF2",
    valueDt := "02/04/25", withdrawal := "50.00", deposit := "75.00",
    balance := "325.00" }

/-- HDFC statement lines with an unparseable line (`01/02/25 GARBAGE
NOREF`) between two valid transactions. -/
def c7HdfcLines : List String :=
  ["HDFC Bank",
   "Date Narration Chq./Ref.No. Value Dt Withdrawal Amt. Deposit Amt. Closing Balance",
   "01/04/25 PAYMENT REF1 01/04/25 100.00 200.00 300.00",
   "01/02/25 GARBAGE NOREF",
   "02/04/25 REFUND REF2 02/04/25 50.00 75.00 325.00"]

/-- First Union Bank raw record of `c7UnionLines` (same-line shape). -/
def unionRaw1 : UnionRaw :=
  { srNo := "1", date := "01/01/2024", txnId := "TXN001",
    remarks := "UPI PAYMENT", amount := "500.00 (Dr)",
    balance := some "1,500.00 (Cr)" }

/-- Second Union Bank raw record of `c7UnionLines` (multi-line shape,
balance taken from the following bare balance line). -/
def unionRaw2 : UnionRaw :=
  { srNo := "2", date := "02/01/2024", txnId := "TXN002",
    remarks := "NEFT TRANSFER", amount := "200.00 (Dr)",
    balance := some "1,300.00 (Cr)" }

/-- Union Bank statement lines with a transaction-start-shaped
unparseable line (`99 01/01/2024 garbage here`) between a same-line
transaction and a multi-line transaction whose balance follows on its
own line. -/
def c7UnionLines : List String :=
  ["Union Bank of India",
   "S.No Date Transaction Id Remarks Amount(Rs.) Balance(Rs.)",
   "1 01/01/2024 TXN001 UPI PAYMENT 500.00 (Dr) 1,500.00 (Cr)",
   "99 01/01/2024 garbage here",
   "2 02/01/2024 TXN002 NEFT TRANSFER 200.00 (Dr)",
   "1,300.00 (Cr)"]

/-- A text containing the HDFC header and a transaction-start line but
no bank name: detection must go through the header fallback. -/
def hdrOnlyText : String :=
  "Date Narration Chq./Ref.No. Value Dt Withdrawal Amt. Deposit Amt. Closing Balance\n01/04/25 PAYMENT REF1 01/04/25 100.00 200.00 300.00"

/-! ### Helper lemmas -/

/-- The value of a digit/dot string is a quotient of naturals, hence
non-negative. -/
theorem pyFloatDigitsDots_nonneg (cs : List Char) (v : ℚ)
    (h : pyFloatDigitsDots cs = some v) : 0 ≤ v := by
  unfold pyFloatDigitsDots at h
  dsimp only at h
  split at h
  · split at h
    · exact absurd h (by simp)
    · obtain rfl := Option.some.inj h
      exact Rat.mkRat_nonneg (Int.ofNat_nonneg _) _
  · split at h
    · exact absurd h (by simp)
    · obtain rfl := Option.some.inj h
      exact Rat.mkRat_nonneg (Int.ofNat_nonneg _) _
  · exact absurd h (by simp)

/-- `_clean_amount` never yields a negative value: the cleaned string
consists of digits and dots only (every `-` sign is stripped), so the
parsed value is a quotient of naturals. -/
theorem cleanAmount_nonneg (s : String) (v : ℚ) (h : cleanAmount s = some v) :
    0 ≤ v := by
  simp only [cleanAmount] at h
  split at h
  · exact absurd h (by simp)
  · exact pyFloatDigitsDots_nonneg _ _ h

/-- The bare-balance pattern is one of the alternatives of the negative
lookahead in the remarks-continuation pattern, so a line recognized as a
bare balance can never be accepted as a remarks continuation. -/
theorem bareBalance_not_remCont (s : String) (h : bareBalanceHit s = true) :
    unionRemCont s = false := by
  have hmem : bareBalanceToks ∈ unionContAlts := by
    unfold unionContAlts
    simp
  have halts : altHits unionContAlts s = true :=
    List.any_eq_true.2 ⟨bareBalanceToks, hmem, h⟩
  simp [unionRemCont, halts]

/-- The transaction list produced by the scan loop does not depend on
the debug-message accumulator. -/
theorem scanGo_fst_msgs_irrel (bank : BankId) (lines : List String) :
    ∀ (fuel i : Nat) (inSec : Bool) (txns : List RawTxn) (msgs msgs' : List String),
      (scanGo bank lines fuel i inSec txns msgs).1
        = (scanGo bank lines fuel i inSec txns msgs').1 := by
  intro fuel
  induction fuel with
  | zero => intro i inSec txns msgs msgs'; rfl
  | succ f ih =>
    intro i inSec txns msgs msgs'
    unfold scanGo
    split
    · split
      · rfl
      · exact ih _ _ _ _ _
      · exact ih _ _ _ _ _
      · exact ih _ _ _ _ _
    · rfl

/-! ### C1 — debit/credit assignment for Union Bank / SBI rows -/

/-- C1 counterexample: the claim states that for balances
`[1000, 1500, 1300]` and amount texts `[500, 200]`, balance-delta
reconciliation classifies row 1 as credit/500 and row 2 as debit/200.
On the code, `extract_amount_type` never consults the balance column: it
looks only for a `'(Dr)'` / `'(Cr)'` marker inside the amount text, so
both rows get direction `None`, not `[credit, debit]`. -/
theorem c1_counterexample :
    ((unionSbiPost
      [{ srNo := "1", date := "01/01/2024", txnId := "T1", remarks := "R1",
         amount := "500", balance := some "1500" },
       { srNo := "2", date := "02/01/2024", txnId := "T2", remarks := "R2",
         amount := "200", balance := some "1300" }]).map URow.txType
      = [none, none])
    ∧ ([none, none] : List (Option TxnDir))
      ≠ [some TxnDir.Cr, some TxnDir.Dr] := by
  decide

/-- C1 amended: for Union Bank / SBI layouts the debit/credit direction
of each row is taken solely from an embedded `'(Dr)'` / `'(Cr)'` marker
in that row's amount text (`'(Dr)'` wins over `'(Cr)'`; no marker gives
direction `None`); the running balance column is never consulted, so any
two row lists with the same amount texts get identical directions. -/
theorem c1_amended_marker_direction (rs rs' : List UnionRaw)
    (h : rs.map UnionRaw.amount = rs'.map UnionRaw.amount) :
    ((unionSbiPost rs).map URow.txType = (unionSbiPost rs').map URow.txType)
    ∧ (unionSbiPost rs).map URow.txType
      = rs.map (fun r =>
          if subOccurs "(Dr)" r.amount then some TxnDir.Dr
          else if subOccurs "(Cr)" r.amount then some TxnDir.Cr
          else none) := by
  have key : ∀ ts : List UnionRaw,
      (unionSbiPost ts).map URow.txType
        = (ts.map UnionRaw.amount).map (fun a =>
            if subOccurs "(Dr)" a then some TxnDir.Dr
            else if subOccurs "(Cr)" a then some TxnDir.Cr
            else none) := by
    intro ts
    simp only [unionSbiPost, List.map_map]
    rfl
  refine ⟨?_, ?_⟩
  · rw [key, key, h]
  · rw [key, List.map_map]
    rfl

/-- C1 amended witness: two single-row lists with the same `(Dr)`-tagged
amount text but different balances receive the same direction, and that
direction is `Dr` as given by the marker. -/
theorem c1_amended_witness :
    ((unionSbiPost
        [{ srNo := "1", date := "01/01/2024", txnId := "T1", remarks := "R1",
           amount := "500.00 (Dr)", balance := some "1500" }]).map URow.txType
      = (unionSbiPost
        [{ srNo := "9", date := "09/09/2024", txnId := "T9", remarks := "R9",
           amount := "500.00 (Dr)", balance := some "9999" }]).map URow.txType)
    ∧ (unionSbiPost
        [{ srNo := "1", date := "01/01/2024", txnId := "T1", remarks := "R1",
           amount := "500.00 (Dr)", balance := some "1500" }]).map URow.txType
      = [({ srNo := "1", date := "01/01/2024", txnId := "T1", remarks := "R1",
            amount := "500.00 (Dr)", balance := some "1500" } : UnionRaw)].map
          (fun r =>
            if subOccurs "(Dr)" r.amount then some TxnDir.Dr
            else if subOccurs "(Cr)" r.amount then some TxnDir.Cr
            else none) :=
  c1_amended_marker_direction _ _ (by decide)

/-! ### C2 — distinguishing "no transactions" from total failure -/

/-- C2 counterexample: the claim states that `parse` propagates an
explicit failure result on empty input, distinguishable from "zero
transactions found". On the code, `parse` returns the same no-column
empty DataFrame for empty input and for a successfully detected bank
with zero parsed transactions: the two outcomes are equal values. -/
theorem c2_counterexample :
    parse "" = PTable.empty
    ∧ detectBank "Union Bank of India" = some BankId.UNION_BANK
    ∧ parse "Union Bank of India" = PTable.empty := by
  decide

/-- C2 amended: `parse` returns the empty DataFrame alike for empty
input, for undetected layouts, and for detected layouts whose scan
produced zero transactions (on that last path the `NameError` raised by
the `df.empty and header_found` check is caught and converted to
`pd.DataFrame()`); the returned value does not distinguish these
outcomes, and no explicit `InputUnreadable` failure result exists. -/
theorem c2_amended_empty_indistinguishable (text : String) :
    (text = "" → parse text = PTable.empty)
    ∧ (detectBank text = none → parse text = PTable.empty)
    ∧ (∀ b, detectBank text = some b →
        (scanTransactions b (pySplitlines text)).1 = [] →
        parse text = PTable.empty) := by
  refine ⟨?_, ?_, ?_⟩
  · intro h
    simp [parse, h]
  · intro h
    by_cases ht : text = ""
    · simp [parse, ht]
    · simp [parse, ht, h]
  · intro b hb hscan
    have ht : text ≠ "" := by
      intro he
      rw [he] at hb
      simp [detectBank] at hb
    simp [parse, ht, hb, parseBody, hscan]

/-- C2 amended witness: instantiated at the empty text and at the text
`"Union Bank of India"` (whose bank is detected but which contains no
transactions). -/
theorem c2_amended_witness :
    parse "" = PTable.empty ∧ parse "Union Bank of India" = PTable.empty :=
  ⟨(c2_amended_empty_indistinguishable "").1 rfl,
   (c2_amended_empty_indistinguishable "Union Bank of India").2.2
     BankId.UNION_BANK (by decide) (by decide)⟩

/-! ### C3 — name-based detection -/

/-- C3 counterexample: the claim promises a name match for every text
containing a bank's exact name as a (case-insensitive) substring, but
`detect_bank` searches `\b name \b` with word boundaries: the text
`"XHDFC Banker"` contains the exact substring `"HDFC Bank"` yet no
layout is detected. -/
theorem c3_counterexample :
    subOccurs "HDFC Bank" "XHDFC Banker" = true
    ∧ detectBank "XHDFC Banker" = none := by
  decide

/-- C3 amended: name-based detection requires a word-bounded
(case-insensitive) occurrence of the bank name. For every non-empty
text in which a layout's name occurs word-bounded and no
earlier-registered layout's name does, `detect_bank` returns that
layout by name match alone, never reaching header matching; when no
name and no header-confirmation matches, it returns `None` (the
function is total — absence is a value, not an exception). -/
theorem c3_amended_name_detect (text : String) :
    (∀ b : BankId, text ≠ "" →
      wordCISearch (detectCfg b).name text = true →
      (∀ b', bankIdx b' < bankIdx b →
        wordCISearch (detectCfg b').name text = false) →
      detectBank text = some b)
    ∧ ((∀ b : BankId, wordCISearch (detectCfg b).name text = false) →
       (∀ b : BankId, headerConfirmed (detectCfg b) (pySplitlines text) = false) →
       detectBank text = none) := by
  constructor
  · intro b hne hb hfirst
    cases b with
    | SBI =>
      simp [detectBank, hne, detectByName, registry, List.find?, hb]
    | HDFC =>
      have h0 := hfirst BankId.SBI (by decide)
      simp [detectBank, hne, detectByName, registry, List.find?, hb, h0]
    | UNION_BANK =>
      have h0 := hfirst BankId.SBI (by decide)
      have h1 := hfirst BankId.HDFC (by decide)
      simp [detectBank, hne, detectByName, registry, List.find?, hb, h0, h1]
  · intro hn hh
    by_cases ht : text = ""
    · simp [detectBank, ht]
    · simp [detectBank, ht, detectByName, detectByHeader, registry, List.find?,
        hn BankId.SBI, hn BankId.HDFC, hn BankId.UNION_BANK,
        hh BankId.SBI, hh BankId.HDFC, hh BankId.UNION_BANK]

/-- C3 amended witness: a text containing both the SBI and the Union
Bank names resolves to SBI (first in registry order), and a text with
no names and no headers resolves to `None`. -/
theorem c3_amended_witness :
    detectBank "State Bank of India and Union Bank of India" = some BankId.SBI
    ∧ detectBank "no banks mentioned here" = none :=
  ⟨(c3_amended_name_detect "State Bank of India and Union Bank of India").1
      BankId.SBI (by decide) (by decide)
      (by intro b' h; exact absurd h (Nat.not_lt_zero _)),
   (c3_amended_name_detect "no banks mentioned here").2
      (by intro b; cases b <;> decide)
      (by intro b; cases b <;> decide)⟩

/-! ### C4 — header-pattern fallback detection -/

/-- C4: when no bank name matches, detection falls back to
header-pattern matching (conjunct 1); a layout confirmed by the
fallback has some line whose whitespace-collapsed form matches the
header pattern, and — when a start rule is configured — some of the
next 9 original lines (`range(i+1, min(i+10, len))`) satisfies the
start rule (conjunct 2); for a layout with no start rule configured, a
header match on any line alone suffices (conjunct 3). -/
theorem c4_header_fallback :
    (∀ text : String, text ≠ "" → detectByName text = none →
      detectBank text = detectByHeader (pySplitlines text))
    ∧ (∀ (cfg : DetectCfg) (lines : List String),
        headerConfirmed cfg lines = true →
        ∃ pre l post, lines = pre ++ l :: post
          ∧ cfg.headerHit (collapseWS l) = true
          ∧ (cfg.startHit = none
             ∨ ∃ f, cfg.startHit = some f ∧ ∃ j ∈ post.take 9, f j = true))
    ∧ (∀ (cfg : DetectCfg) (lines : List String), cfg.startHit = none →
        (∃ pre l post, lines = pre ++ l :: post
          ∧ cfg.headerHit (collapseWS l) = true) →
        headerConfirmed cfg lines = true) := by
  refine ⟨?_, ?_, ?_⟩
  · intro text hne hn
    simp [detectBank, hne, hn]
  · intro cfg lines
    induction lines with
    | nil => intro h; simp [headerConfirmed, headerConfirmedAux] at h
    | cons l rest ih =>
      intro h
      simp only [headerConfirmed, headerConfirmedAux] at h
      by_cases hh : cfg.headerHit (collapseWS l) = true
      · rw [if_pos hh] at h
        cases hs : cfg.startHit with
        | none => exact ⟨[], l, rest, rfl, hh, Or.inl rfl⟩
        | some f =>
          rw [hs] at h
          rw [Bool.or_eq_true] at h
          rcases h with hany | hrest
          · obtain ⟨j, hj, hfj⟩ := List.any_eq_true.1 hany
            exact ⟨[], l, rest, rfl, hh, Or.inr ⟨f, rfl, j, hj, hfj⟩⟩
          · obtain ⟨pre, l', post, heq, h1, h2⟩ := ih hrest
            rw [← hs]
            exact ⟨l :: pre, l', post, by rw [heq]; rfl, h1, h2⟩
      · rw [if_neg hh] at h
        obtain ⟨pre, l', post, heq, h1, h2⟩ := ih h
        exact ⟨l :: pre, l', post, by rw [heq]; rfl, h1, h2⟩
  · intro cfg lines hnone hex
    obtain ⟨pre, l, post, rfl, hh⟩ := hex
    induction pre with
    | nil => simp [headerConfirmed, headerConfirmedAux, hh, hnone]
    | cons p pre' ih =>
      simp only [headerConfirmed, headerConfirmedAux, List.cons_append]
      by_cases hp : cfg.headerHit (collapseWS p) = true
      · rw [if_pos hp, hnone]
      · rw [if_neg hp]
        exact ih

/-- C4 witness: a text with the HDFC header but no bank name goes
through the fallback; the fallback's confirmation on that text implies a
header-matching line with a start-rule hit in the 9-line window; and a
synthetic configuration without a start rule is confirmed by a bare
header match. -/
theorem c4_witness :
    detectBank hdrOnlyText = detectByHeader (pySplitlines hdrOnlyText)
    ∧ (∃ pre l post, pySplitlines hdrOnlyText = pre ++ l :: post
        ∧ (detectCfg BankId.HDFC).headerHit (collapseWS l) = true
        ∧ ((detectCfg BankId.HDFC).startHit = none
           ∨ ∃ f, (detectCfg BankId.HDFC).startHit = some f
               ∧ ∃ j ∈ post.take 9, f j = true))
    ∧ headerConfirmed
        { name := "T", headerHit := fun s => decide (s = "HDR"),
          startHit := none } ["HDR"] = true :=
  ⟨c4_header_fallback.1 hdrOnlyText (by decide) (by decide),
   c4_header_fallback.2.1 _ _ (by decide),
   c4_header_fallback.2.2 _ _ rfl ⟨[], "HDR", [], rfl, by decide⟩⟩

/-! ### C5 — stop conditions are gated on an existing transaction -/

/-- C5: (1) while no transaction has been produced, no line — stop
pattern or blank run — ever makes the scan stop; (2) once in the
transaction section with at least one transaction, a line matching a
stop pattern, or a blank run at the threshold, transitions to Stopped;
(3) once stopped, the scan returns exactly the transactions accumulated
so far: no line after the stopping line contributes anything. -/
theorem c5_stop_gating :
    (∀ (bank : BankId) (lines : List String) (i : Nat) (inSec : Bool),
      stepAt bank lines i inSec false ≠ StepRes.stop)
    ∧ (∀ (bank : BankId) (lines : List String) (i : Nat),
        blankRunAt lines i = true
          ∨ stopLineHit (pyStrip (lines.getD i "")) = true →
        stepAt bank lines i true true = StepRes.stop)
    ∧ (∀ (bank : BankId) (lines : List String) (fuel i : Nat) (inSec : Bool)
        (txns : List RawTxn) (msgs : List String),
        stepAt bank lines i inSec (!txns.isEmpty) = StepRes.stop →
        scanGo bank lines (fuel + 1) i inSec txns msgs = (txns, msgs)) := by
  refine ⟨?_, ?_, ?_⟩
  · intro bank lines i inSec
    cases bank <;>
      · simp only [stepAt, Bool.false_and, Bool.false_eq_true, if_false]
        repeat' split
        all_goals simp_all
  · intro bank lines i h
    unfold stepAt
    simp only [Bool.not_true, Bool.false_and, Bool.false_eq_true, if_false,
      Bool.true_and]
    rcases h with hb | hs
    · rw [if_pos hb]
    · by_cases hbr : blankRunAt lines i = true
      · rw [if_pos hbr]
      · rw [if_neg hbr, if_pos hs]
  · intro bank lines fuel i inSec txns msgs hstep
    unfold scanGo
    split
    · rw [hstep]
    · rfl

/-- C5 witness: before any transaction a stop line does not stop; with a
transaction present the footer line `"Statement Summary"` stops; and the
stopped scan returns exactly the accumulated transaction. -/
theorem c5_witness :
    stepAt BankId.UNION_BANK ["Statement Summary"] 0 true false ≠ StepRes.stop
    ∧ stepAt BankId.UNION_BANK ["Statement Summary"] 0 true true = StepRes.stop
    ∧ scanGo BankId.UNION_BANK ["Statement Summary"] 1 0 true
        [RawTxn.union unionRaw1] [] = ([RawTxn.union unionRaw1], []) :=
  ⟨c5_stop_gating.1 BankId.UNION_BANK ["Statement Summary"] 0 true,
   c5_stop_gating.2.1 BankId.UNION_BANK ["Statement Summary"] 0 (Or.inr (by decide)),
   c5_stop_gating.2.2 BankId.UNION_BANK ["Statement Summary"] 0 0 true
     [RawTxn.union unionRaw1] [] (by decide)⟩

/-! ### C6 — resolved-row invariants -/

/-- C6 counterexample: the claim's invariant "at most one of withdrawal
and deposit is non-zero" is not enforced: parsing `hdfcBothText` yields
a row with withdrawal 100 and deposit 200, both non-zero (the direction
then resolves to `Dr` by withdrawal precedence). -/
theorem c6_counterexample :
    parse hdfcBothText
      = PTable.hdfcT
          [{ date := "01/04/25", narration := "PAYMENT", refNo := "REF1",
             valueDt := "01/04/25", withdrawal := some 100,
             deposit := some 200, balanceNum := some 300,
             amountNum := some 100, txType := some TxnDir.Dr }]
    ∧ (100 : ℚ) ≠ 0 ∧ (200 : ℚ) ≠ 0 := by
  decide

/-- C6 amended: every resolved row has a non-negative amount and a
direction among debit, credit, unknown — but a row may carry a non-zero
value in both the withdrawal and the deposit column; whenever the
withdrawal is present and non-zero (in particular when both are), the
direction resolves to `Dr`. -/
theorem c6_amended_row_invariants :
    (∀ (rs : List HdfcRaw), ∀ r ∈ hdfcPost rs,
      (∀ v, r.amountNum = some v → 0 ≤ v)
      ∧ (r.txType = some TxnDir.Dr ∨ r.txType = some TxnDir.Cr ∨ r.txType = none)
      ∧ (∀ w, r.withdrawal = some w → w ≠ 0 → r.txType = some TxnDir.Dr))
    ∧ (∀ (us : List UnionRaw), ∀ u ∈ unionSbiPost us,
      (∀ v, u.amountNum = some v → 0 ≤ v)
      ∧ (u.txType = some TxnDir.Dr ∨ u.txType = some TxnDir.Cr ∨ u.txType = none)) := by
  constructor
  · intro rs r hr
    obtain ⟨raw, _, rfl⟩ := List.mem_map.1 hr
    refine ⟨?_, ?_, ?_⟩
    · intro v hv
      dsimp only [hdfcPostRow] at hv
      split at hv
      · exact cleanAmount_nonneg _ _ hv
      · exact cleanAmount_nonneg _ _ hv
    · dsimp only [hdfcPostRow]
      split
      · exact Or.inl rfl
      · split
        · exact Or.inr (Or.inl rfl)
        · exact Or.inr (Or.inr rfl)
    · intro w hw hwne
      dsimp only [hdfcPostRow] at hw ⊢
      rw [hw]
      simp [hwne]
  · intro us u hu
    obtain ⟨raw, _, rfl⟩ := List.mem_map.1 hu
    refine ⟨?_, ?_⟩
    · intro v hv
      dsimp only [unionSbiPostRow, extractAmountType] at hv
      exact cleanAmount_nonneg _ _ hv
    · dsimp only [unionSbiPostRow, extractAmountType]
      split
      · exact Or.inl rfl
      · split
        · exact Or.inr (Or.inl rfl)
        · exact Or.inr (Or.inr rfl)

/-- C6 amended witness: instantiated on the parsed rows of `hdfcRaw1`
(amount 100) and `unionRaw1` (amount 500). -/
theorem c6_amended_witness : (0 : ℚ) ≤ 100 ∧ (0 : ℚ) ≤ 500 :=
  ⟨(c6_amended_row_invariants.1 [hdfcRaw1] (hdfcPostRow hdfcRaw1) (by decide)).1
      100 (by decide),
   (c6_amended_row_invariants.2 [unionRaw1] (unionSbiPostRow unionRaw1) (by decide)).1
      500 (by decide)⟩

/-! ### C7 — failing blocks are skipped, but no diagnostic is collected -/

/-- C7 counterexample: the HDFC scan of `c7HdfcLines` — whose middle
line `"01/02/25 GARBAGE NOREF"` fails the transaction grammar — still
parses both valid transactions (the failing line is excluded and does
not abort the parse), but the diagnostics channel is empty: no
`ParseFailure` record of the offending block's text is collected
anywhere (the HDFC debug print is commented out in the source; only a
dead counter is incremented). -/
theorem c7_counterexample :
    scanTransactions BankId.HDFC c7HdfcLines
      = ([RawTxn.hdfc hdfcRaw1, RawTxn.hdfc hdfcRaw2], []) := by
  decide

/-- C7 amended: when a line in the transaction section fails every
grammar alternative (a `skip` step), scanning continues with the next
line and the transaction output is unaffected by the skipped line
(conjunct 1); the only diagnostic the parser emits is a console debug
message, and only for Union Bank lines that look like a transaction
start — as on `c7UnionLines`, where both valid transactions around the
failing line are still parsed (conjunct 2). -/
theorem c7_amended_continue_on_failure :
    (∀ (bank : BankId) (lines : List String) (fuel i : Nat) (inSec : Bool)
        (txns : List RawTxn) (msgs : List String) (m : Option String),
      stepAt bank lines i inSec (!txns.isEmpty) = StepRes.skip m →
      i < lines.length →
      (scanGo bank lines (fuel + 1) i inSec txns msgs).1
        = (scanGo bank lines fuel (i + 1) inSec txns msgs).1)
    ∧ scanTransactions BankId.UNION_BANK c7UnionLines
      = ([RawTxn.union unionRaw1, RawTxn.union unionRaw2],
         ["DEBUG UNION: No transaction match on line 3: '99 01/01/2024 garbage here'"]) := by
  constructor
  · intro bank lines fuel i inSec txns msgs m hstep hi
    conv_lhs => unfold scanGo
    rw [if_pos hi, hstep]
    exact scanGo_fst_msgs_irrel bank lines fuel (i + 1) inSec txns _ msgs
  · decide

/-- C7 amended witness: skipping the failing line of `c7HdfcLines` at
index 3 leaves the transaction output unchanged. -/
theorem c7_amended_witness :
    (scanGo BankId.HDFC c7HdfcLines 2 3 true [RawTxn.hdfc hdfcRaw1] []).1
      = (scanGo BankId.HDFC c7HdfcLines 1 4 true [RawTxn.hdfc hdfcRaw1] []).1 :=
  c7_amended_continue_on_failure.1 BankId.HDFC c7HdfcLines 1 3 true
    [RawTxn.hdfc hdfcRaw1] [] none (by decide) (by decide)

/-! ### C8 — large-credit categorization fallback -/

/-- C8: after classification, the fallback preserves the number of rows
and, position by position: an `"Uncategorized"` row of type `Cr` whose
amount strictly exceeds 5000 is reclassified to `"Salary/Income"`; a row
whose amount is at most 5000 (or missing) is unchanged; a row whose type
is not `Cr` (in particular a debit row) is unchanged; a row whose
category is not `"Uncategorized"` is unchanged. -/
theorem c8_income_fallback (rows : List CRow) :
    (applyIncomeFallback rows).length = rows.length
    ∧ ∀ p ∈ rows.zip (applyIncomeFallback rows),
        (p.1.category = "Uncategorized" → p.1.txType = some TxnDir.Cr →
          ∀ v, p.1.amountNum = some v → 5000 < v →
          p.2.category = "Salary/Income")
        ∧ (∀ v, p.1.amountNum = some v → v ≤ 5000 → p.2 = p.1)
        ∧ (p.1.amountNum = none → p.2 = p.1)
        ∧ (p.1.txType ≠ some TxnDir.Cr → p.2 = p.1)
        ∧ (p.1.category ≠ "Uncategorized" → p.2 = p.1) := by
  have hrow : ∀ r : CRow,
      (r.category = "Uncategorized" → r.txType = some TxnDir.Cr →
        ∀ v, r.amountNum = some v → 5000 < v →
        (if incomeFallbackCond r then { r with category := "Salary/Income" }
         else r).category = "Salary/Income")
      ∧ (∀ v, r.amountNum = some v → v ≤ 5000 →
          (if incomeFallbackCond r then { r with category := "Salary/Income" }
           else r) = r)
      ∧ (r.amountNum = none →
          (if incomeFallbackCond r then { r with category := "Salary/Income" }
           else r) = r)
      ∧ (r.txType ≠ some TxnDir.Cr →
          (if incomeFallbackCond r then { r with category := "Salary/Income" }
           else r) = r)
      ∧ (r.category ≠ "Uncategorized" →
          (if incomeFallbackCond r then { r with category := "Salary/Income" }
           else r) = r) := by
    intro r
    by_cases hc : incomeFallbackCond r = true
    · have hc' := hc
      simp only [incomeFallbackCond, Bool.and_eq_true, decide_eq_true_eq] at hc'
      obtain ⟨⟨hcat, hty⟩, hamt⟩ := hc'
      rw [if_pos hc]
      refine ⟨fun _ _ _ _ _ => rfl, ?_, ?_, ?_, ?_⟩
      · intro v hv hle
        rw [hv] at hamt
        simp only [decide_eq_true_eq] at hamt
        exact absurd hamt (not_lt.2 hle)
      · intro hnone
        rw [hnone] at hamt
        exact absurd hamt (by simp)
      · intro hne
        exact absurd hty hne
      · intro hne
        exact absurd hcat hne
    · rw [if_neg hc]
      refine ⟨?_, fun _ _ _ => rfl, fun _ => rfl, fun _ => rfl, fun _ => rfl⟩
      intro hcat hty v hv hgt
      exact absurd (by simp [incomeFallbackCond, hcat, hty, hv, hgt]) hc
  induction rows with
  | nil => exact ⟨rfl, by intro p hp; simp at hp⟩
  | cons r rest ih =>
    refine ⟨by simp [applyIncomeFallback], ?_⟩
    intro p hp
    have hcons : applyIncomeFallback (r :: rest)
        = (if incomeFallbackCond r then { r with category := "Salary/Income" }
           else r) :: applyIncomeFallback rest := rfl
    rw [hcons, List.zip_cons_cons] at hp
    rcases List.mem_cons.1 hp with rfl | hmem
    · exact hrow r
    · exact ih.2 p hmem

/-- C8 witness: a credit of 7000 over threshold 5000 is reclassified,
and a credit of 3000 is not. -/
theorem c8_witness :
    (applyIncomeFallback
      [{ category := "Uncategorized", txType := some TxnDir.Cr, amountNum := some 7000 },
       { category := "Uncategorized", txType := some TxnDir.Cr, amountNum := some 3000 }]).length
      = 2
    ∧ applyIncomeFallback
        [{ category := "Uncategorized", txType := some TxnDir.Cr, amountNum := some 7000 },
         { category := "Uncategorized", txType := some TxnDir.Cr, amountNum := some 3000 }]
      = [{ category := "Salary/Income", txType := some TxnDir.Cr, amountNum := some 7000 },
         { category := "Uncategorized", txType := some TxnDir.Cr, amountNum := some 3000 }]
    ∧ ({ category := "Salary/Income", txType := some TxnDir.Cr,
         amountNum := some 7000 } : CRow).category = "Salary/Income" :=
  ⟨(c8_income_fallback _).1, by decide,
   ((c8_income_fallback
      [{ category := "Uncategorized", txType := some TxnDir.Cr, amountNum := some 7000 },
       { category := "Uncategorized", txType := some TxnDir.Cr, amountNum := some 3000 }]).2
      ({ category := "Uncategorized", txType := some TxnDir.Cr, amountNum := some 7000 },
       { category := "Salary/Income", txType := some TxnDir.Cr, amountNum := some 7000 })
      (by decide)).1 rfl rfl 7000 rfl (by decide)⟩

/-! ### C9 — bare balance lines are never narration continuation -/

/-- C9: the bare-balance check precedes the generic remarks-continuation
rule — (1) no line collected as a same-line remarks continuation is a
bare balance line; (2) a bare balance line immediately following a
same-line transaction terminates the continuation at once; (3) for a
multi-line transaction, an immediately following bare balance line is
consumed as the transaction's balance (group 1 of the balance pattern);
(4) no line collected as a multi-line remarks continuation is a bare
balance line, in any balance-found state. -/
theorem c9_bare_balance_guard :
    (∀ rest : List String, ∀ p ∈ (unionSameCollect rest).1, bareBalanceHit p = false)
    ∧ (∀ (orig : String) (rest : List String),
        bareBalanceHit (pyStrip orig) = true →
        (unionSameCollect (orig :: rest)).1 = [])
    ∧ (∀ (orig : String) (rest : List String),
        bareBalanceHit (pyStrip orig) = true →
        (unionMultiCollect (orig :: rest) false).2.1
          = bareBalanceCap (pyStrip orig))
    ∧ (∀ (rest : List String) (bf : Bool),
        ∀ p ∈ (unionMultiCollect rest bf).1, bareBalanceHit p = false) := by
  refine ⟨?_, ?_, ?_, ?_⟩
  · intro rest
    induction rest with
    | nil => intro p hp; simp [unionSameCollect] at hp
    | cons orig rest ih =>
      intro p hp
      unfold unionSameCollect at hp
      dsimp only at hp
      split at hp
      · simp at hp
      · next hcond =>
        simp only [Bool.or_eq_true, not_or, Bool.not_eq_true] at hcond
        rcases List.mem_cons.1 hp with rfl | hmem
        · exact hcond.1.2
        · exact ih p hmem
  · intro orig rest h
    unfold unionSameCollect
    dsimp only
    rw [if_pos (by simp [h])]
  · intro orig rest h
    unfold unionMultiCollect
    dsimp only
    rw [if_pos (by simp [h])]
  · intro rest
    induction rest with
    | nil => intro bf p hp; simp [unionMultiCollect] at hp
    | cons orig rest ih =>
      intro bf p hp
      unfold unionMultiCollect at hp
      dsimp only at hp
      split at hp
      · exact ih true p hp
      · split at hp
        · next hcont =>
          rcases List.mem_cons.1 hp with rfl | hmem
          · by_contra hb
            rw [Bool.not_eq_false] at hb
            have hfalse := bareBalance_not_remCont _ hb
            rw [hcont] at hfalse
            exact absurd hfalse (by simp)
          · exact ih bf p hmem
        · simp at hp

/-- C9 witness: a plain remark line is collected and is not a bare
balance; a bare balance line terminates same-line continuation; a bare
balance line after a multi-line transaction is captured as its balance;
a line accepted as multi-line continuation is not a bare balance. -/
theorem c9_witness :
    bareBalanceHit "extra remark words" = false
    ∧ (unionSameCollect ["1,300.00 (Cr)"]).1 = []
    ∧ (unionMultiCollect ["1,300.00 (Cr)"] false).2.1
        = bareBalanceCap (pyStrip "1,300.00 (Cr)")
    ∧ bareBalanceHit "more remarks" = false :=
  ⟨c9_bare_balance_guard.1 ["extra remark words"] "extra remark words" (by decide),
   c9_bare_balance_guard.2.1 "1,300.00 (Cr)" [] (by decide),
   c9_bare_balance_guard.2.2.1 "1,300.00 (Cr)" [] (by decide),
   c9_bare_balance_guard.2.2.2 ["more remarks"] false "more remarks" (by decide)⟩

/-! ### C10 — `parse` never propagates an exception -/

/-- C10: `parse` is total and converts every internal failure into the
empty DataFrame. In particular the empty-result path, on which the
reference to the undefined variable `header_found` raises a `NameError`
inside the `try:` block, is caught and yields `pd.DataFrame()` (conjunct
1); and for every input, `parse` either returns the empty DataFrame or
the successfully parsed table (conjunct 2) — a value in every case,
never an escaping exception. -/
theorem c10_no_exception :
    (∀ (text : String) (bank : BankId), detectBank text = some bank →
      (scanTransactions bank (pySplitlines text)).1 = [] →
      parseBody bank text = Except.error PyErr.nameErrorHeaderFound
      ∧ parse text = PTable.empty)
    ∧ (∀ text : String, parse text = PTable.empty
        ∨ ∃ bank, detectBank text = some bank
            ∧ parseBody bank text = Except.ok (parse text)) := by
  constructor
  · intro text bank hb hscan
    have hbody : parseBody bank text = Except.error PyErr.nameErrorHeaderFound := by
      simp [parseBody, hscan]
    refine ⟨hbody, ?_⟩
    have ht : text ≠ "" := by
      intro he
      rw [he] at hb
      simp [detectBank] at hb
    simp [parse, ht, hb, hbody]
  · intro text
    by_cases ht : text = ""
    · left
      simp [parse, ht]
    · cases hd : detectBank text with
      | none =>
        left
        simp [parse, ht, hd]
      | some bank =>
        cases hbody : parseBody bank text with
        | error e =>
          left
          simp [parse, ht, hd, hbody]
        | ok t =>
          right
          exact ⟨bank, rfl, by simp [parse, ht, hd, hbody]⟩

/-- C10 witness: on `"Union Bank of India"` the bank is detected, the
scan yields no transactions, the parse body raises the `header_found`
`NameError`, and `parse` still returns the empty DataFrame. -/
theorem c10_witness :
    parseBody BankId.UNION_BANK "Union Bank of India"
      = Except.error PyErr.nameErrorHeaderFound
    ∧ parse "Union Bank of India" = PTable.empty :=
  c10_no_exception.1 "Union Bank of India" BankId.UNION_BANK (by decide) (by decide)

end MyFinance
